import Mathlib

/-!
Shallow embedding of the xcap recording engine (Rust) in Lean 4, together
with theorems settling the frozen claims about its specification.

Source files embedded:
- src/video_recorder.rs        (Condition, Frame, RecorderWaker)
- src/linux/xorg_video_recorder.rs    (polling backend: start/pause/stop, on_frame)
- src/linux/wayland_video_recorder.rs (portal backend: ScreenCast, set_state, pipewire process callback)
- src/linux/dbus/screencast.rs (CursorModes, best_mode, response deserializers)
- src/linux/dbus/request.rs    (ResponseCode, Responses, on_blocking_response)

Machine integers: the Rust code uses u32 sizes bounded by the negotiated
4096x4096 maximum, far from overflow, so sizes are modelled as Nat.
Mutexes always succeed in this single-interleaving embedding (lock
poisoning only arises from a prior panic, which has no counterpart here).
-/

/-- Embeds `Condition` from src/video_recorder.rs: the recorder lifecycle
state shared between caller threads and the capture thread. -/
inductive Condition where
  | Init
  | Running
  | Paused
  | Stopped
deriving DecidableEq, Repr

namespace Condition

/-- Embeds `Condition::is_running`. -/
def is_running (c : Condition) : Bool :=
  c = Condition.Running

/-- Embeds the `Display` impl for `Condition`. -/
def display : Condition → String
  | .Init => "Init"
  | .Running => "Running"
  | .Paused => "Paused"
  | .Stopped => "Stopped"

end Condition

/-- Embeds `Frame` from src/video_recorder.rs. -/
structure Frame where
  width : Nat
  height : Nat
  raw : List Nat
deriving DecidableEq, Repr

/-- Embeds `RecorderWaker` from src/video_recorder.rs. Only the `parking`
flag is state; the condition variable carries no payload. -/
structure RecorderWaker where
  parking : Bool
deriving DecidableEq, Repr

namespace RecorderWaker

/-- Embeds `RecorderWaker::wake`: sets `parking = false` (and notifies one
waiter; the notification carries no data). -/
def wake (_ : RecorderWaker) : RecorderWaker := ⟨false⟩

/-- Embeds `RecorderWaker::sleep`: sets `parking = true`. -/
def sleep (_ : RecorderWaker) : RecorderWaker := ⟨true⟩

end RecorderWaker

/-- Embeds the caller-visible state of `XorgVideoRecorder`
(src/linux/xorg_video_recorder.rs): the shared `Condition` and the waker. -/
structure XorgVideoRecorder where
  condition : Condition
  recorder_waker : RecorderWaker
deriving DecidableEq, Repr

namespace XorgVideoRecorder

/-- Embeds `XorgVideoRecorder::start` (src/linux/xorg_video_recorder.rs:84).
Returns the call result paired with the recorder state after the call. -/
def start (r : XorgVideoRecorder) : Except String Unit × XorgVideoRecorder :=
  match r.condition with
  | .Running => (.ok (), r)
  | .Stopped => (.error "Recorder is already stopped", r)
  | _ => (.ok (), { condition := .Running, recorder_waker := r.recorder_waker.wake })

/-- Embeds `XorgVideoRecorder::pause` (src/linux/xorg_video_recorder.rs:102). -/
def pause (r : XorgVideoRecorder) : Except String Unit × XorgVideoRecorder :=
  match r.condition with
  | .Paused => (.ok (), r)
  | .Stopped => (.error "Recorder is already stopped", r)
  | _ => (.ok (), { condition := .Paused, recorder_waker := r.recorder_waker.sleep })

/-- Embeds `XorgVideoRecorder::stop` (src/linux/xorg_video_recorder.rs:120). -/
def stop (r : XorgVideoRecorder) : Except String Unit × XorgVideoRecorder :=
  if r.condition = .Stopped then (.ok (), r)
  else (.ok (), { condition := .Stopped, recorder_waker := r.recorder_waker.wake })

end XorgVideoRecorder

/-- Embeds the caller-visible state of `WaylandVideoRecorder`
(src/linux/wayland_video_recorder.rs): the shared `Condition` plus the
sequence of notifications pushed on `condition_sender` (the control
channel into the pipewire event loop). -/
structure WaylandVideoRecorder where
  condition : Condition
  sent : List Condition
deriving DecidableEq, Repr

namespace WaylandVideoRecorder

/-- Embeds `WaylandVideoRecorder::set_state`
(src/linux/wayland_video_recorder.rs:525): the shared transition
algorithm of the portal backend. -/
def set_state (r : WaylandVideoRecorder) (target_cond : Condition)
    (disallowed_cond : Option Condition) : Except String Unit × WaylandVideoRecorder :=
  if r.condition = target_cond then (.ok (), r)
  else
    match disallowed_cond with
    | some d =>
      if r.condition = d then
        (.error ("cannot set state from " ++ r.condition.display ++ " to " ++
          d.display ++ " state"), r)
      else (.ok (), { condition := target_cond, sent := r.sent ++ [target_cond] })
    | none => (.ok (), { condition := target_cond, sent := r.sent ++ [target_cond] })

/-- Embeds `WaylandVideoRecorder::start` (src/linux/wayland_video_recorder.rs:513). -/
def start (r : WaylandVideoRecorder) : Except String Unit × WaylandVideoRecorder :=
  r.set_state .Running (some .Stopped)

/-- Embeds `WaylandVideoRecorder::pause` (src/linux/wayland_video_recorder.rs:517). -/
def pause (r : WaylandVideoRecorder) : Except String Unit × WaylandVideoRecorder :=
  r.set_state .Paused (some .Stopped)

/-- Embeds `WaylandVideoRecorder::stop` (src/linux/wayland_video_recorder.rs:521). -/
def stop (r : WaylandVideoRecorder) : Except String Unit × WaylandVideoRecorder :=
  r.set_state .Stopped none

end WaylandVideoRecorder

/-- Embeds the subset of pipewire's `VideoFormat` values the process
callback distinguishes (src/linux/wayland_video_recorder.rs:374); `other`
stands for every format outside the four supported arms. -/
inductive VideoFormat where
  | RGB
  | RGBA
  | RGBx
  | BGRx
  | other
deriving DecidableEq, Repr

/-- Embeds the RGB-arm loop of the process callback
(src/linux/wayland_video_recorder.rs:376): `buf` starts as
`w*h*4` zero bytes split into 4-byte chunks; the loop zips the complete
3-byte chunks of the source with those 4-byte chunks, copying R,G,B and
setting the 4th byte to 255, and stops when either side is exhausted.
`rgbFill src n` is the buffer with `n` 4-byte chunks remaining. -/
def rgbFill : List Nat → Nat → List Nat
  | _, 0 => []
  | r :: g :: b :: rest, n + 1 => r :: g :: b :: 255 :: rgbFill rest n
  | _, n + 1 => List.replicate ((n + 1) * 4) 0

/-- Embeds the whole RGB arm: output buffer of `w*h` pixels (4 bytes each)
filled from `frame_data`. -/
def rgbToRgba (w h : Nat) (frame_data : List Nat) : List Nat :=
  rgbFill frame_data (w * h)

/-- Embeds the BGRx arm of the process callback
(src/linux/wayland_video_recorder.rs:390): copy the input and swap bytes
0 and 2 inside every complete aligned 4-byte chunk; a trailing run of
fewer than 4 bytes is left unchanged (`chunks_exact_mut(4)` skips it). -/
def bgrxConvert : List Nat → List Nat
  | b :: g :: r :: x :: rest => r :: g :: b :: x :: bgrxConvert rest
  | rest => rest

/-- Embeds the format match of the process callback
(src/linux/wayland_video_recorder.rs:374): the per-buffer conversion to
canonical RGBA8, `none` for the unsupported-format arm that drops the
buffer. -/
def convertBuffer (fmt : VideoFormat) (w h : Nat) (frame_data : List Nat) :
    Option (List Nat) :=
  match fmt with
  | .RGB => some (rgbToRgba w h frame_data)
  | .RGBA => some frame_data
  | .RGBx => some frame_data
  | .BGRx => some (bgrxConvert frame_data)
  | .other => none

/-- Embeds one execution of the portal backend's process callback
(src/linux/wayland_video_recorder.rs:355): `cond` is the Condition read
under its mutex at the top of the callback, `dequeued` is the mapped byte
data of the dequeued buffer (`none` collapses the three early exits:
no buffer, empty `datas`, no mapped data), `w`/`h` the negotiated size.
Result: the converted buffer (decode result) paired with the Frame sent
on the channel, if any. -/
def processBuffer (cond : Condition) (fmt : VideoFormat) (w h : Nat)
    (dequeued : Option (List Nat)) : Option (List Nat) × Option Frame :=
  match dequeued with
  | none => (none, none)
  | some frame_data =>
    match convertBuffer fmt w h frame_data with
    | none => (none, none)
    | some buffer =>
      (some buffer, if cond.is_running then some (Frame.mk w h buffer) else none)

/-- Modelled from the spec: `ImplMonitor::capture_image` lives in
src/linux/impl_monitor.rs, which is not under src/; per the spec the
polling backend captures "one full-frame image of the bound output" and
converts it to a Frame in RGBA8 with raw length = width·height·4, so a
captured image is modelled as carrying that length invariant. -/
structure CapturedImage where
  width : Nat
  height : Nat
  raw : List Nat
  len_eq : raw.length = width * height * 4

/-- Embeds the Frame construction in `XorgVideoRecorder::on_frame`
(src/linux/xorg_video_recorder.rs:58): `Frame::new(width, height, raw)`
from the captured image. -/
def xorgOnFrame (image : CapturedImage) : Frame :=
  Frame.mk image.width image.height image.raw

/-- C1: on both backends, `stop()` always returns success and leaves the
Condition at Stopped; a `stop()` issued when the Condition is already
Stopped succeeds without mutating the state, and a repeated `stop()`
after any `stop()` succeeds and leaves the state exactly as the first
left it, so any repeated sequence of stops all succeed and end Stopped. -/
theorem C1_stop_always_succeeds_idempotent :
    ∀ (x : XorgVideoRecorder) (w : WaylandVideoRecorder),
      (x.stop.1 = .ok () ∧ x.stop.2.condition = .Stopped) ∧
      (w.stop.1 = .ok () ∧ w.stop.2.condition = .Stopped) ∧
      (x.stop.2.stop = (.ok (), x.stop.2)) ∧
      (w.stop.2.stop = (.ok (), w.stop.2)) ∧
      (∀ wk : RecorderWaker, (XorgVideoRecorder.mk .Stopped wk).stop = (.ok (), ⟨.Stopped, wk⟩)) ∧
      (∀ s : List Condition, (WaylandVideoRecorder.mk .Stopped s).stop = (.ok (), ⟨.Stopped, s⟩)) := by
  intro x w
  refine ⟨⟨?_, ?_⟩, ⟨?_, ?_⟩, ?_, ?_, ?_, ?_⟩ <;>
    simp [XorgVideoRecorder.stop, WaylandVideoRecorder.stop,
      WaylandVideoRecorder.set_state] <;>
    (split <;> simp_all [XorgVideoRecorder.stop])

/-- C2: on both backends, a `start()` or `pause()` issued while the
Condition is Stopped fails with a state error and returns the recorder
state completely unchanged: the Condition stays Stopped, the waker flag
is untouched, and no notification is pushed on the control channel. -/
theorem C2_start_pause_after_stop_fail_unchanged :
    ∀ (wk : RecorderWaker) (s : List Condition),
      (XorgVideoRecorder.mk .Stopped wk).start =
        (.error "Recorder is already stopped", ⟨.Stopped, wk⟩) ∧
      (XorgVideoRecorder.mk .Stopped wk).pause =
        (.error "Recorder is already stopped", ⟨.Stopped, wk⟩) ∧
      (WaylandVideoRecorder.mk .Stopped s).start =
        (.error "cannot set state from Stopped to Stopped state", ⟨.Stopped, s⟩) ∧
      (WaylandVideoRecorder.mk .Stopped s).pause =
        (.error "cannot set state from Stopped to Stopped state", ⟨.Stopped, s⟩) := by
  intro wk s
  refine ⟨rfl, rfl, ?_, ?_⟩ <;>
    simp [WaylandVideoRecorder.start, WaylandVideoRecorder.pause,
      WaylandVideoRecorder.set_state, Condition.display]

theorem rgbFill_length (src : List Nat) (n : Nat) :
    (rgbFill src n).length = n * 4 := by
  induction src, n using rgbFill.induct <;>
    simp [rgbFill, *] <;> omega

theorem rgbFill_getElem :
    ∀ (i : Nat) (src : List Nat) (n : Nat), src.length = 3 * n → i < n →
      (rgbFill src n)[4 * i]? = src[3 * i]? ∧
      (rgbFill src n)[4 * i + 1]? = src[3 * i + 1]? ∧
      (rgbFill src n)[4 * i + 2]? = src[3 * i + 2]? ∧
      (rgbFill src n)[4 * i + 3]? = some 255 := by
  intro i
  induction i with
  | zero =>
    intro src n h hi
    cases n with
    | zero => omega
    | succ m =>
      cases src with
      | nil => simp at h
      | cons r s1 =>
        cases s1 with
        | nil => simp at h; omega
        | cons g s2 =>
          cases s2 with
          | nil => simp at h; omega
          | cons b rest => simp [rgbFill]
  | succ j ih =>
    intro src n h hi
    cases n with
    | zero => omega
    | succ m =>
      cases src with
      | nil => simp at h
      | cons r s1 =>
        cases s1 with
        | nil => simp at h; omega
        | cons g s2 =>
          cases s2 with
          | nil => simp at h; omega
          | cons b rest =>
            have hrest : rest.length = 3 * m := by simp at h; omega
            have hj : j < m := by omega
            obtain ⟨g0, g1, g2, g3⟩ := ih rest m hrest hj
            have e0 : 4 * (j + 1) = 4 * j + 1 + 1 + 1 + 1 := by ring
            have e1 : 4 * (j + 1) + 1 = 4 * j + 1 + 1 + 1 + 1 + 1 := by ring
            have e2 : 4 * (j + 1) + 2 = 4 * j + 2 + 1 + 1 + 1 + 1 := by ring
            have e3 : 4 * (j + 1) + 3 = 4 * j + 3 + 1 + 1 + 1 + 1 := by ring
            have f0 : 3 * (j + 1) = 3 * j + 1 + 1 + 1 := by ring
            have f1 : 3 * (j + 1) + 1 = 3 * j + 1 + 1 + 1 + 1 := by ring
            have f2 : 3 * (j + 1) + 2 = 3 * j + 2 + 1 + 1 + 1 := by ring
            refine ⟨?_, ?_, ?_, ?_⟩
            · rw [e0, f0]; simp only [rgbFill, List.getElem?_cons_succ]; exact g0
            · rw [e1, f1]; simp only [rgbFill, List.getElem?_cons_succ]; exact g1
            · rw [e2, f2]; simp only [rgbFill, List.getElem?_cons_succ]; exact g2
            · rw [e3]; simp only [rgbFill, List.getElem?_cons_succ]; exact g3

theorem bgrxConvert_length : ∀ l : List Nat, (bgrxConvert l).length = l.length
  | a :: b :: c :: d :: rest => by
    simp [bgrxConvert, bgrxConvert_length rest]
  | [] => rfl
  | [a] => rfl
  | [a, b] => rfl
  | [a, b, c] => rfl

theorem bgrxConvert_involutive : ∀ l : List Nat, bgrxConvert (bgrxConvert l) = l
  | a :: b :: c :: d :: rest => by
    simp [bgrxConvert, bgrxConvert_involutive rest]
  | [] => rfl
  | [a] => rfl
  | [a, b] => rfl
  | [a, b, c] => rfl

theorem bgrxConvert_swap_getElem :
    ∀ (i : Nat) (l : List Nat), 4 * i + 3 < l.length →
      (bgrxConvert l)[4 * i]? = l[4 * i + 2]? ∧
      (bgrxConvert l)[4 * i + 1]? = l[4 * i + 1]? ∧
      (bgrxConvert l)[4 * i + 2]? = l[4 * i]? ∧
      (bgrxConvert l)[4 * i + 3]? = l[4 * i + 3]? := by
  intro i
  induction i with
  | zero =>
    intro l hl
    match l, hl with
    | a :: b :: c :: d :: rest, _ => simp [bgrxConvert]
    | [], hl => simp only [List.length_nil] at hl; omega
    | [a], hl => simp only [List.length_cons, List.length_nil] at hl; omega
    | [a, b], hl => simp only [List.length_cons, List.length_nil] at hl; omega
    | [a, b, c], hl => simp only [List.length_cons, List.length_nil] at hl; omega
  | succ j ih =>
    intro l hl
    match l, hl with
    | a :: b :: c :: d :: rest, hl =>
      have hj : 4 * j + 3 < rest.length := by
        simp only [List.length_cons] at hl; omega
      obtain ⟨g0, g1, g2, g3⟩ := ih rest hj
      have e0 : 4 * (j + 1) = 4 * j + 1 + 1 + 1 + 1 := by ring
      have e1 : 4 * (j + 1) + 1 = 4 * j + 1 + 1 + 1 + 1 + 1 := by ring
      have e2 : 4 * (j + 1) + 2 = 4 * j + 2 + 1 + 1 + 1 + 1 := by ring
      have e3 : 4 * (j + 1) + 3 = 4 * j + 3 + 1 + 1 + 1 + 1 := by ring
      refine ⟨?_, ?_, ?_, ?_⟩
      · conv_lhs => rw [e0]
        conv_rhs => rw [e2]
        simp only [bgrxConvert, List.getElem?_cons_succ]; exact g0
      · rw [e1]; simp only [bgrxConvert, List.getElem?_cons_succ]; exact g1
      · conv_lhs => rw [e2]
        conv_rhs => rw [e0]
        simp only [bgrxConvert, List.getElem?_cons_succ]; exact g2
      · rw [e3]; simp only [bgrxConvert, List.getElem?_cons_succ]; exact g3
    | [], hl => simp only [List.length_nil] at hl; omega
    | [a], hl => simp only [List.length_cons, List.length_nil] at hl; omega
    | [a, b], hl => simp only [List.length_cons, List.length_nil] at hl; omega
    | [a, b, c], hl => simp only [List.length_cons, List.length_nil] at hl; omega

theorem bgrxConvert_trailing_getElem :
    ∀ (l : List Nat) (j : Nat), 4 * (l.length / 4) ≤ j →
      (bgrxConvert l)[j]? = l[j]?
  | a :: b :: c :: d :: rest, j => by
    intro hj
    have hlen : (a :: b :: c :: d :: rest).length = rest.length + 4 := by simp
    have hquot : 4 * ((rest.length + 4) / 4) = 4 * (rest.length / 4) + 4 := by omega
    have hj4 : 4 ≤ j := by rw [hlen, hquot] at hj; omega
    obtain ⟨k, hk⟩ : ∃ k, j = k + 1 + 1 + 1 + 1 := ⟨j - 4, by omega⟩
    have hk' : 4 * (rest.length / 4) ≤ k := by rw [hlen, hquot] at hj; omega
    subst hk
    simp only [bgrxConvert, List.getElem?_cons_succ]
    exact bgrxConvert_trailing_getElem rest k hk'
  | [], j => by intro hj; rfl
  | [a], j => by intro hj; rfl
  | [a, b], j => by intro hj; rfl
  | [a, b, c], j => by intro hj; rfl

/-- C3: in the portal backend's process callback, a converted Frame is
sent on the channel only when the Condition read under its mutex is
Running; for a buffer processed while the Condition is Init, Paused or
Stopped nothing is sent, while the conversion (decode) of the dequeued
data still takes place exactly as for a Running Condition. -/
theorem C3_delivery_gating (cond : Condition) (fmt : VideoFormat) (w h : Nat)
    (dequeued : Option (List Nat)) :
    (∀ f, (processBuffer cond fmt w h dequeued).2 = some f → cond = .Running) ∧
    (cond ≠ .Running →
      (processBuffer cond fmt w h dequeued).2 = none ∧
      (processBuffer cond fmt w h dequeued).1 =
        dequeued.bind (convertBuffer fmt w h)) := by
  cases dequeued with
  | none => exact ⟨fun f hf => by simp [processBuffer] at hf, fun hc => by simp [processBuffer]⟩
  | some d =>
    cases hcv : convertBuffer fmt w h d with
    | none =>
      exact ⟨fun f hf => by simp [processBuffer, hcv] at hf,
        fun hc => by simp [processBuffer, hcv]⟩
    | some buffer =>
      constructor
      · intro f hf
        by_cases hc : cond = Condition.Running
        · exact hc
        · simp [processBuffer, hcv, Condition.is_running, hc] at hf
      · intro hc
        simp [processBuffer, hcv, Condition.is_running, hc]

/-- C3 witness: a buffer processed while the Condition is Paused is
decoded but not delivered. -/
theorem C3_delivery_gating_witness :
    (Condition.Paused ≠ Condition.Running) ∧
    ((processBuffer .Paused .RGBA 1 1 (some [1, 2, 3, 4])).2 = none ∧
     (processBuffer .Paused .RGBA 1 1 (some [1, 2, 3, 4])).1 =
       (some [1, 2, 3, 4]).bind (convertBuffer .RGBA 1 1)) :=
  ⟨by decide, (C3_delivery_gating .Paused .RGBA 1 1 (some [1, 2, 3, 4])).2 (by decide)⟩

/-- C4 counterexample: the claim that every delivered Frame satisfies
raw.len = width·height·4 fails on the portal backend's passthrough
formats. A 1x1 buffer negotiated as RGBA whose dequeued data has 3 bytes
is delivered unchanged: the sent Frame has raw length 3, not 1·1·4 = 4.
(The RGBA arm is `frame_data.to_vec()`, with no length check.) -/
theorem C4_counterexample :
    (processBuffer .Running .RGBA 1 1 (some [0, 0, 0])).2 =
      some (Frame.mk 1 1 [0, 0, 0]) ∧
    (Frame.mk 1 1 [0, 0, 0]).raw.length ≠ 1 * 1 * 4 := by
  decide

/-- C4 amended: a Frame delivered from the RGB conversion arm always has
raw length width·height·4 (the output buffer is allocated at exactly that
size); a Frame delivered from a passthrough arm (RGBA, RGBx) or the BGRx
arm has raw length equal to the dequeued buffer's byte length, so such a
Frame satisfies raw length = width·height·4 exactly when the dequeued
buffer's length is width·height·4; and every Frame built by the polling
backend from a captured image has raw length width·height·4. -/
theorem C4_amended_frame_lengths :
    (∀ (cond : Condition) (w h : Nat) (d : List Nat) (f : Frame),
      (processBuffer cond .RGB w h (some d)).2 = some f →
        f.raw.length = w * h * 4) ∧
    (∀ (cond : Condition) (fmt : VideoFormat) (w h : Nat) (d : List Nat) (f : Frame),
      (fmt = .RGBA ∨ fmt = .RGBx ∨ fmt = .BGRx) →
      (processBuffer cond fmt w h (some d)).2 = some f →
        f.raw.length = d.length ∧
        (f.raw.length = w * h * 4 ↔ d.length = w * h * 4)) ∧
    (∀ image : CapturedImage,
      (xorgOnFrame image).raw.length = image.width * image.height * 4) := by
  refine ⟨?_, ?_, ?_⟩
  · intro cond w h d f hf
    by_cases hc : cond = Condition.Running
    · subst hc
      simp [processBuffer, convertBuffer, Condition.is_running] at hf
      rw [← hf]
      simp [rgbToRgba, rgbFill_length]
    · simp [processBuffer, convertBuffer, Condition.is_running, hc] at hf
  · intro cond fmt w h d f hfmt hf
    by_cases hc : cond = Condition.Running
    · subst hc
      have hlen : f.raw.length = d.length := by
        rcases hfmt with h1 | h1 | h1 <;> subst h1
        · simp [processBuffer, convertBuffer, Condition.is_running] at hf
          rw [← hf]
        · simp [processBuffer, convertBuffer, Condition.is_running] at hf
          rw [← hf]
        · simp [processBuffer, convertBuffer, Condition.is_running] at hf
          rw [← hf]
          simp [bgrxConvert_length]
      exact ⟨hlen, by rw [hlen]⟩
    · rcases hfmt with h1 | h1 | h1 <;> subst h1 <;>
        simp [processBuffer, convertBuffer, Condition.is_running, hc] at hf
  · intro image
    simpa [xorgOnFrame] using image.len_eq

/-- C4 amended witness: a concrete 1x1 RGB buffer is delivered as a Frame
of raw length 4, and a concrete undersized 1x1 RGBA buffer is delivered
with raw length equal to its own 3 bytes, failing the invariant exactly
because 3 is not 1·1·4. -/
theorem C4_amended_frame_lengths_witness :
    ((processBuffer .Running .RGB 1 1 (some [7, 8, 9])).2 =
        some (Frame.mk 1 1 [7, 8, 9, 255])) ∧
    ((Frame.mk 1 1 [7, 8, 9, 255]).raw.length = 1 * 1 * 4) ∧
    ((processBuffer .Running .RGBA 1 1 (some [5, 6, 7])).2 =
        some (Frame.mk 1 1 [5, 6, 7])) ∧
    ((Frame.mk 1 1 [5, 6, 7]).raw.length = ([5, 6, 7] : List Nat).length ∧
     ((Frame.mk 1 1 [5, 6, 7]).raw.length = 1 * 1 * 4 ↔
        ([5, 6, 7] : List Nat).length = 1 * 1 * 4)) :=
  ⟨by decide,
   C4_amended_frame_lengths.1 .Running 1 1 [7, 8, 9]
     (Frame.mk 1 1 [7, 8, 9, 255]) (by decide),
   by decide,
   C4_amended_frame_lengths.2.1 .Running .RGBA 1 1 [5, 6, 7]
     (Frame.mk 1 1 [5, 6, 7]) (Or.inl rfl) (by decide)⟩

/-- C8: converting an RGB buffer of W·H pixels (3 bytes per pixel, length
3·W·H) yields an RGBA buffer of length W·H·4 in which, for every pixel
index i, output bytes 4i, 4i+1, 4i+2 equal input bytes 3i, 3i+1, 3i+2
and output byte 4i+3 equals 255. -/
theorem C8_rgb_conversion (w h : Nat) (frame_data : List Nat)
    (hlen : frame_data.length = 3 * (w * h)) :
    (rgbToRgba w h frame_data).length = w * h * 4 ∧
    ∀ i, i < w * h →
      (rgbToRgba w h frame_data)[4 * i]? = frame_data[3 * i]? ∧
      (rgbToRgba w h frame_data)[4 * i + 1]? = frame_data[3 * i + 1]? ∧
      (rgbToRgba w h frame_data)[4 * i + 2]? = frame_data[3 * i + 2]? ∧
      (rgbToRgba w h frame_data)[4 * i + 3]? = some 255 := by
  constructor
  · simp [rgbToRgba, rgbFill_length]
  · intro i hi
    exact rgbFill_getElem i frame_data (w * h) hlen hi

/-- C8 witness: the conversion evaluated on a concrete 2x1 RGB buffer. -/
theorem C8_rgb_conversion_witness :
    (([10, 20, 30, 40, 50, 60] : List Nat).length = 3 * (2 * 1)) ∧
    ((rgbToRgba 2 1 [10, 20, 30, 40, 50, 60]).length = 2 * 1 * 4 ∧
     ∀ i, i < 2 * 1 →
      (rgbToRgba 2 1 [10, 20, 30, 40, 50, 60])[4 * i]? =
        ([10, 20, 30, 40, 50, 60] : List Nat)[3 * i]? ∧
      (rgbToRgba 2 1 [10, 20, 30, 40, 50, 60])[4 * i + 1]? =
        ([10, 20, 30, 40, 50, 60] : List Nat)[3 * i + 1]? ∧
      (rgbToRgba 2 1 [10, 20, 30, 40, 50, 60])[4 * i + 2]? =
        ([10, 20, 30, 40, 50, 60] : List Nat)[3 * i + 2]? ∧
      (rgbToRgba 2 1 [10, 20, 30, 40, 50, 60])[4 * i + 3]? = some 255) :=
  ⟨by decide, C8_rgb_conversion 2 1 [10, 20, 30, 40, 50, 60] (by decide)⟩

/-- C9: the BGRx conversion swaps bytes 0 and 2 within each aligned
4-byte pixel, leaves bytes 1 and 3 of each pixel and any trailing run of
fewer than 4 bytes unchanged, preserves the length, and is self-inverse:
converting twice returns the original byte sequence. -/
theorem C9_bgrx_swap_involutive :
    (∀ l : List Nat, bgrxConvert (bgrxConvert l) = l) ∧
    (∀ l : List Nat, (bgrxConvert l).length = l.length) ∧
    (∀ (l : List Nat) (i : Nat), 4 * i + 3 < l.length →
      (bgrxConvert l)[4 * i]? = l[4 * i + 2]? ∧
      (bgrxConvert l)[4 * i + 1]? = l[4 * i + 1]? ∧
      (bgrxConvert l)[4 * i + 2]? = l[4 * i]? ∧
      (bgrxConvert l)[4 * i + 3]? = l[4 * i + 3]?) ∧
    (∀ (l : List Nat) (j : Nat), 4 * (l.length / 4) ≤ j →
      (bgrxConvert l)[j]? = l[j]?) :=
  ⟨bgrxConvert_involutive, bgrxConvert_length,
    fun l i => bgrxConvert_swap_getElem i l, bgrxConvert_trailing_getElem⟩

/-- C9 witness: the swap evaluated on a concrete 5-byte buffer (one
complete pixel plus one trailing byte). -/
theorem C9_bgrx_swap_involutive_witness :
    (4 * 0 + 3 < ([9, 8, 7, 6, 5] : List Nat).length) ∧
    ((bgrxConvert [9, 8, 7, 6, 5])[4 * 0]? =
        ([9, 8, 7, 6, 5] : List Nat)[4 * 0 + 2]? ∧
     (bgrxConvert [9, 8, 7, 6, 5])[4 * 0 + 1]? =
        ([9, 8, 7, 6, 5] : List Nat)[4 * 0 + 1]? ∧
     (bgrxConvert [9, 8, 7, 6, 5])[4 * 0 + 2]? =
        ([9, 8, 7, 6, 5] : List Nat)[4 * 0]? ∧
     (bgrxConvert [9, 8, 7, 6, 5])[4 * 0 + 3]? =
        ([9, 8, 7, 6, 5] : List Nat)[4 * 0 + 3]?) ∧
    ((bgrxConvert [9, 8, 7, 6, 5])[4]? = ([9, 8, 7, 6, 5] : List Nat)[4]?) :=
  ⟨by decide, C9_bgrx_swap_involutive.2.2.1 [9, 8, 7, 6, 5] 0 (by decide),
    C9_bgrx_swap_involutive.2.2.2 [9, 8, 7, 6, 5] 4 (by decide)⟩

/-- Embeds `ResponseCode` (src/linux/dbus/request.rs:32). -/
inductive ResponseCode where
  | Success
  | Cancelled
  | Failed
deriving DecidableEq, Repr

namespace ResponseCode

/-- Embeds `ResponseCode::is_success`. -/
def is_success (c : ResponseCode) : Bool :=
  c = ResponseCode.Success

/-- Embeds the `Display` impl for `ResponseCode`: the numeric code
followed by the variant name. -/
def display : ResponseCode → String
  | .Success => "0 Success"
  | .Cancelled => "1 Cancelled"
  | .Failed => "2 Failed"

end ResponseCode

/-- Embeds `Responses<T>` (src/linux/dbus/request.rs:57): the response
code paired with the deserialized result dictionary. -/
structure Responses (T : Type) where
  code : ResponseCode
  results : T
deriving DecidableEq, Repr

/-- Embeds `Responses::is_success`. -/
def Responses.is_success {T : Type} (r : Responses T) : Bool :=
  r.code.is_success

/-- Embeds `StartStreamProperty` (src/linux/dbus/screencast.rs:39). -/
structure StartStreamProperty where
  id : Option String
  position : Option (Int × Int)
  size : Option (Int × Int)
  source_type : Nat
  mapping_id : Option String
deriving DecidableEq, Repr

/-- Embeds `StartStreamResponse` (src/linux/dbus/screencast.rs:69). -/
structure StartStreamResponse where
  pipewire_node_id : Nat
  property : StartStreamProperty
deriving DecidableEq, Repr

/-- Models `zvariant::OwnedValue` restricted to the payload shapes the
embedded deserializers distinguish; a constructor mismatch stands for the
`try_into` conversion failure of the corresponding typed extraction. -/
inductive OwnedValue where
  | objectPath (path : String)
  | str (s : String)
  | streamList (streams : List StartStreamResponse)
deriving DecidableEq, Repr

/-- Embeds `OwnedValue -> ObjectPath` conversion (`try_into` used by
`CreateSessionResponse::try_from_response`). -/
def OwnedValue.toObjectPath : OwnedValue → Except String String
  | .objectPath p => .ok p
  | _ => .error "invalid object path value"

/-- Embeds `OwnedValue -> Vec<StartStreamResponse>` conversion
(`try_into` used by `StartResponse::try_from_response`). -/
def OwnedValue.toStreams : OwnedValue → Except String (List StartStreamResponse)
  | .streamList l => .ok l
  | _ => .error "invalid streams value"

/-- Embeds `OwnedValue -> String` conversion (`try_into` used for the
optional `restore_token`). -/
def OwnedValue.toStr : OwnedValue → Except String String
  | .str s => .ok s
  | _ => .error "invalid string value"

/-- Embeds `ResponseMap = HashMap<String, OwnedValue>`
(src/linux/dbus/request.rs:14) as an association list queried by key. -/
abbrev ResponseMap := List (String × OwnedValue)

/-- Embeds `CreateSessionResponse` (src/linux/dbus/screencast.rs:18). -/
structure CreateSessionResponse where
  session_handle : String
deriving DecidableEq, Repr

/-- Embeds `CreateSessionResponse::try_from_response`
(src/linux/dbus/screencast.rs:27): the `session_handle` key is mandatory
and its value must convert to an object path. -/
def CreateSessionResponse.try_from_response (map : ResponseMap) :
    Except String CreateSessionResponse :=
  match map.lookup "session_handle" with
  | none => .error "map has no key session_handle"
  | some v =>
    match v.toObjectPath with
    | .error e => .error e
    | .ok p => .ok ⟨p⟩

/-- Embeds `StartResponse` (src/linux/dbus/screencast.rs:76). -/
structure StartResponse where
  streams : List StartStreamResponse
  restore_token : Option String
deriving DecidableEq, Repr

/-- Embeds `StartResponse::try_from_response`
(src/linux/dbus/screencast.rs:86): the `streams` key is mandatory
(missing key or failed conversion is an error); `restore_token` is
optional and a failed conversion silently becomes `none`
(`and_then(|v| v.try_into().ok())`). -/
def StartResponse.try_from_response (map : ResponseMap) :
    Except String StartResponse :=
  match map.lookup "streams" with
  | none => .error "map has no key streams"
  | some v =>
    match v.toStreams with
    | .error e => .error e
    | .ok s =>
      .ok ⟨s, (map.lookup "restore_token").bind fun w => w.toStr.toOption⟩

/-- Embeds `on_blocking_response` (src/linux/dbus/request.rs:137) from
the point where the response subscription exists: `fres` is the outcome
of the closure `f` issuing the remote call, `signal` the notification
received on the subscribed request path (`none` when the signal iterator
yields nothing). The result dictionary is deserialized with
`try_deserialize` regardless of the response code (a non-Success code is
only logged), and the typed `Responses` value carries the code. -/
def on_blocking_response {T : Type}
    (try_from : ResponseMap → Except String T)
    (fres : Except String Unit)
    (signal : Option (ResponseCode × ResponseMap)) :
    Except String (Responses T) :=
  match fres with
  | .error e => .error e
  | .ok () =>
    match signal with
    | none => .error "No response received"
    | some (code, results) =>
      match try_from results with
      | .error e => .error e
      | .ok r => .ok ⟨code, r⟩

/-- Embeds the `CursorModes` bitflags (src/linux/dbus/screencast.rs:99)
over the underlying u32 bit pattern: Hidden = 1, Embedded = 2,
Metadata = 4. -/
structure CursorModes where
  bits : Nat
deriving DecidableEq, Repr

namespace CursorModes

def Hidden : CursorModes := ⟨1⟩

def Embedded : CursorModes := ⟨2⟩

def Metadata : CursorModes := ⟨4⟩

def empty : CursorModes := ⟨0⟩

/-- bitflags `union`. -/
def union (a b : CursorModes) : CursorModes := ⟨a.bits ||| b.bits⟩

/-- bitflags `contains`: every bit of `f` is present in `m`. -/
def contains (m f : CursorModes) : Bool := m.bits &&& f.bits = f.bits

/-- bitflags `bitand` (intersection of the bit sets). -/
def bitand (a b : CursorModes) : CursorModes := ⟨a.bits &&& b.bits⟩

/-- Embeds `CursorModes::is_hidden_available`
(src/linux/dbus/screencast.rs:140): `self & (Hidden | Metadata) > Hidden`
under the derived `Ord`, which compares the underlying bits. -/
def is_hidden_available (m : CursorModes) : Bool :=
  decide ((m.bitand (Hidden.union Metadata)).bits > Hidden.bits)

/-- Embeds `CursorModes::best_mode` (src/linux/dbus/screencast.rs:145);
the Rust parameter is named `show`, a reserved word here. -/
def best_mode (m : CursorModes) (sh : Bool) : CursorModes :=
  if sh && m.contains Embedded then Embedded
  else if sh && m.contains Metadata then Metadata
  else if m.contains Hidden then Hidden
  else Metadata

end CursorModes

/-- Embeds the `SourceType` bitflags (src/linux/dbus/screencast.rs:106):
Monitor = 1, Window = 2, Virtual = 4. -/
structure SourceType where
  bits : Nat
deriving DecidableEq, Repr

namespace SourceType

def Monitor : SourceType := ⟨1⟩

def Window : SourceType := ⟨2⟩

def Virtual : SourceType := ⟨4⟩

end SourceType

/-- The persisted restore-token state: the content of the single-line
RESTORE_TOKEN file under the per-user data directory
(src/linux/wayland_video_recorder.rs:63), `none` when the file does not
exist. -/
structure FileSystem where
  tokenFile : Option String
deriving DecidableEq, Repr

/-- Embeds the `ScreenCastFlag` bitflags
(src/linux/wayland_video_recorder.rs:67): HideCursor = 1,
EnableMulti = 2, SavePermission = 4. -/
structure ScreenCastFlag where
  bits : Nat
deriving DecidableEq, Repr

namespace ScreenCastFlag

def HideCursor : ScreenCastFlag := ⟨1⟩

def EnableMulti : ScreenCastFlag := ⟨2⟩

def SavePermission : ScreenCastFlag := ⟨4⟩

def empty : ScreenCastFlag := ⟨0⟩

/-- bitflags `contains`. -/
def contains (m f : ScreenCastFlag) : Bool := m.bits &&& f.bits = f.bits

end ScreenCastFlag

/-- Embeds the `ScreenCast` client state
(src/linux/wayland_video_recorder.rs:75) minus the live bus proxy. -/
structure ScreenCastState where
  flags : ScreenCastFlag
  sources : SourceType
  cursor_modes : CursorModes
  restore_token : Option String
deriving DecidableEq, Repr

/-- Embeds `ScreenCast::new` (src/linux/wayland_video_recorder.rs:84).
The live bus objects are replaced by their observed values: `version` is
the portal's Version property, `available` its AvailableCursorModes
property, `fs` the state of the RESTORE_TOKEN file. The result is paired
with the file system after the call, which only ever reads the token
file. -/
def ScreenCast.new (flags : ScreenCastFlag) (sources : SourceType)
    (version : Nat) (available : CursorModes) (fs : FileSystem) :
    (Except String ScreenCastState) × FileSystem :=
  let modesE : Except String CursorModes :=
    if flags.contains ScreenCastFlag.HideCursor then
      if version < 2 then
        .error ("Version " ++ toString version ++
          " does not have capability to fetch cursor modes")
      else if ¬ available.is_hidden_available then
        .error "Cursor hiding is not supported"
      else .ok available
    else .ok CursorModes.empty
  match modesE with
  | .error e => (.error e, fs)
  | .ok modes =>
    let tokenE : Except String (Option String) :=
      if flags.contains ScreenCastFlag.SavePermission then
        if version < 4 then
          .error ("Version " ++ toString version ++
            " does not have capability to save screen cast permission")
        else .ok fs.tokenFile
      else .ok none
    match tokenE with
    | .error e => (.error e, fs)
    | .ok restore_token =>
      (.ok ⟨flags, sources, modes, restore_token⟩, fs)

/-- Embeds `ScreenCast::start` (src/linux/wayland_video_recorder.rs:209):
block for the Start response via `on_blocking_response`; a non-Success
code is surfaced as an error, otherwise the typed results are cloned out
to the caller. Threaded with the file-system state to express what the
call does (and does not do) to the RESTORE_TOKEN file. -/
def ScreenCast.start (signal : Option (ResponseCode × ResponseMap))
    (fs : FileSystem) : (Except String StartResponse) × FileSystem :=
  match on_blocking_response StartResponse.try_from_response (.ok ()) signal with
  | .error e => (.error e, fs)
  | .ok resp =>
    if ¬ resp.is_success then
      (.error ("got error response from portal: " ++ resp.code.display), fs)
    else (.ok resp.results, fs)

/-- C5 counterexample: a portal Start call that completes with code
Success and carries restore token "tok" leaves the RESTORE_TOKEN file
exactly as it was (here: containing "old"); the token is never written.
The successful typed response visibly carries the token, so the premise
of the claim is satisfied while the file write it asserts never
happens. -/
theorem C5_counterexample :
    ((ScreenCast.start
        (some (.Success,
          [("streams", OwnedValue.streamList
              [⟨42, ⟨none, none, none, 1, none⟩⟩]),
           ("restore_token", OwnedValue.str "tok")]))
        ⟨some "old"⟩).1 =
      .ok ⟨[⟨42, ⟨none, none, none, 1, none⟩⟩], some "tok"⟩) ∧
    ((ScreenCast.start
        (some (.Success,
          [("streams", OwnedValue.streamList
              [⟨42, ⟨none, none, none, 1, none⟩⟩]),
           ("restore_token", OwnedValue.str "tok")]))
        ⟨some "old"⟩).2.tokenFile ≠ some "tok") := by
  constructor
  · rfl
  · decide

/-- C5 amended: the code never writes the restore token to the per-user
cache file: `ScreenCast::start` returns the token to its caller and
leaves the file system untouched for every possible response, and
`ScreenCast::new` — the only code touching the RESTORE_TOKEN file — only
reads it (when SavePermission is set), leaving it unchanged as well. -/
theorem C5_amended_no_token_write :
    (∀ (signal : Option (ResponseCode × ResponseMap)) (fs : FileSystem),
      (ScreenCast.start signal fs).2 = fs) ∧
    (∀ (flags : ScreenCastFlag) (sources : SourceType) (version : Nat)
       (available : CursorModes) (fs : FileSystem),
      (ScreenCast.new flags sources version available fs).2 = fs) := by
  constructor
  · intro signal fs
    cases hob : on_blocking_response StartResponse.try_from_response (.ok ()) signal with
    | error e => simp [ScreenCast.start, hob]
    | ok resp =>
      simp only [ScreenCast.start, hob]
      split <;> rfl
  · intro flags sources version available fs
    simp only [ScreenCast.new]
    split
    · rfl
    · split <;> rfl

/-- C6 counterexample: with cursor hiding requested and portal version 2,
an advertised mode set containing Metadata but not Hidden (bits = 4) does
not "contain Hidden and Metadata jointly", yet construction succeeds:
`is_hidden_available` computes (4 AND 5) > 1, which is true. -/
theorem C6_counterexample :
    ((ScreenCast.new ScreenCastFlag.HideCursor SourceType.Monitor 2
        CursorModes.Metadata ⟨none⟩).1.isOk = true) ∧
    (CursorModes.Metadata.contains CursorModes.Hidden = false) := by
  constructor
  · rfl
  · decide

/-- C6 amended: with cursor hiding requested (HideCursor flag, no
SavePermission) and a sufficient portal version, construction fails with
the capability error exactly when the advertised cursor modes lack the
Metadata bit: the check `modes AND (Hidden OR Metadata) > Hidden` holds
iff Metadata is advertised, independent of the Hidden bit. -/
theorem C6_amended_capability_check (version : Nat) (fs : FileSystem)
    (hv : 2 ≤ version) (hbit ebit mbit : Bool) :
    ((ScreenCast.new ScreenCastFlag.HideCursor SourceType.Monitor version
        (CursorModes.mk ((if hbit then 1 else 0) ||| (if ebit then 2 else 0) |||
          (if mbit then 4 else 0))) fs).1.isOk = true) ↔ mbit = true := by
  have hv2 : ¬ version < 2 := by omega
  cases hbit <;> cases ebit <;> cases mbit <;>
    simp [ScreenCast.new, hv2, ScreenCastFlag.contains, ScreenCastFlag.HideCursor,
      ScreenCastFlag.SavePermission, CursorModes.is_hidden_available,
      CursorModes.bitand, CursorModes.union, CursorModes.Hidden,
      CursorModes.Metadata, CursorModes.empty, Except.isOk, Except.toBool] <;>
    rfl

/-- C6 amended witness: at version 2 with only Metadata advertised,
construction succeeds. -/
theorem C6_amended_capability_check_witness :
    (2 ≤ 2) ∧
    (((ScreenCast.new ScreenCastFlag.HideCursor SourceType.Monitor 2
        (CursorModes.mk ((if false then 1 else 0) ||| (if false then 2 else 0) |||
          (if true then 4 else 0))) ⟨none⟩).1.isOk = true) ↔ true = true) :=
  ⟨by decide, C6_amended_capability_check 2 ⟨none⟩ (by decide) false false true⟩

/-- C7 counterexample: on the empty advertised mode set,
`best_mode(prefer_visible = true)` returns Metadata, not the Hidden the
claim's final "else Hidden" demands. -/
theorem C7_counterexample :
    CursorModes.best_mode ⟨0⟩ true = CursorModes.Metadata ∧
    CursorModes.best_mode ⟨0⟩ true ≠ CursorModes.Hidden := by
  decide

/-- C7 amended: for every advertised set, `best_mode(prefer_visible=true)`
returns Embedded when Embedded is advertised, else Metadata when Metadata
is advertised, else Hidden when Hidden is advertised, else Metadata;
`best_mode(prefer_visible=false)` returns Hidden when Hidden is
advertised, else Metadata. -/
theorem C7_amended_best_mode (hbit ebit mbit sh : Bool) :
    CursorModes.best_mode
        (CursorModes.mk ((if hbit then 1 else 0) ||| (if ebit then 2 else 0) |||
          (if mbit then 4 else 0))) sh =
      (if sh && ebit then CursorModes.Embedded
       else if sh && mbit then CursorModes.Metadata
       else if hbit then CursorModes.Hidden
       else CursorModes.Metadata) := by
  cases hbit <;> cases ebit <;> cases mbit <;> cases sh <;> decide

/-- C10: `on_blocking_response` deserializes the result dictionary into
the expected typed response for every response code, including Cancelled
and Failed; when the dictionary lacks a key the response type marks
mandatory (`session_handle` for CreateSession, `streams` for Start), the
call returns an error instead of an Ok carrying the non-Success code, so
the caller observes the code itself only when the dictionary
deserializes (in which case the Ok value carries exactly that code). -/
theorem C10_deserialize_regardless_of_code :
    ∀ (code : ResponseCode) (map : ResponseMap),
      (map.lookup "session_handle" = none →
        on_blocking_response CreateSessionResponse.try_from_response (.ok ())
          (some (code, map)) = .error "map has no key session_handle") ∧
      (map.lookup "streams" = none →
        on_blocking_response StartResponse.try_from_response (.ok ())
          (some (code, map)) = .error "map has no key streams") ∧
      (∀ r, on_blocking_response CreateSessionResponse.try_from_response (.ok ())
          (some (code, map)) = .ok r →
        r.code = code ∧ CreateSessionResponse.try_from_response map = .ok r.results) ∧
      (∀ r, on_blocking_response StartResponse.try_from_response (.ok ())
          (some (code, map)) = .ok r →
        r.code = code ∧ StartResponse.try_from_response map = .ok r.results) := by
  intro code map
  refine ⟨?_, ?_, ?_, ?_⟩
  · intro h
    simp [on_blocking_response, CreateSessionResponse.try_from_response, h]
  · intro h
    simp [on_blocking_response, StartResponse.try_from_response, h]
  · intro r hr
    cases htf : CreateSessionResponse.try_from_response map with
    | error e => simp [on_blocking_response, htf] at hr
    | ok v =>
      simp [on_blocking_response, htf] at hr
      subst hr
      exact ⟨rfl, by simpa using htf⟩
  · intro r hr
    cases htf : StartResponse.try_from_response map with
    | error e => simp [on_blocking_response, htf] at hr
    | ok v =>
      simp [on_blocking_response, htf] at hr
      subst hr
      exact ⟨rfl, by simpa using htf⟩

/-- C10 witness: a Cancelled response with an empty result dictionary
fails deserialization for CreateSession, so the caller never sees the
Cancelled code. -/
theorem C10_deserialize_regardless_of_code_witness :
    (([] : ResponseMap).lookup "session_handle" = none) ∧
    (on_blocking_response CreateSessionResponse.try_from_response (.ok ())
      (some (.Cancelled, ([] : ResponseMap))) =
        .error "map has no key session_handle") :=
  ⟨rfl, (C10_deserialize_regardless_of_code .Cancelled []).1 rfl⟩
